import Mathlib

/-!
Verification development for the raid encounter manager
(src/raid_manager.py of FrostyKingzly/PokebotANOTHAAAA).

The Python module is embedded shallowly:

* External collaborators (species database, move-metadata database,
  learnset database) are read-only query interfaces (spec section 6);
  they are modelled as a record of functions `Collaborators` that every
  operation receives as a parameter.
* Python dicts returned by collaborators become structures / `Option`
  values: `get_species` returning `None` (or an empty, falsy dict)
  becomes `Option SpeciesData`, `get_move` becomes `Option MoveData`
  whose `category` field is itself optional, matching
  `(self.moves_db.get_move(move_id) or {}).get("category")`.
* The registry `self.active_raids : Dict[str, RaidEncounter]` becomes a
  total function `String → Option RaidEncounter` (a Python dict holds at
  most one value per key, which this model makes structural).
* `uuid.uuid4()` and `time.time()` are nondeterministic externals; they
  are passed to `create_manual_raid` as explicit arguments
  (`raid_id`, `now`).
* Python `int` becomes `Int`.  The float `2.0` stat multiplier is
  modelled as the rational number 2; no arithmetic is ever performed on
  it in this core.
* `raise ValueError(...)` becomes `Except String`; a method that may
  raise and may mutate `self` returns a pair
  `(Except String result, RaidState)`, where the error case carries the
  unchanged input state (in the source, the only registry mutation is
  the final `self.active_raids[location_id] = encounter`, which runs
  after every possible raise).
-/

/-- Modelled from the spec: the species record returned by the species
collaborator (spec section 6: "Record must expose at least a canonical
name and national-dex number").  The Python code accesses
`species_data["name"]`; the record itself is built outside src/. -/
structure SpeciesData where
  name : String
  dex_number : Int
deriving DecidableEq, Repr

/-- Modelled from the spec: the move-metadata record returned by
`get_move` (spec section 6: "record with a `category` field or
absent").  The Python code reads only `move_data.get("category")`, which
may itself be absent, hence the `Option`. -/
structure MoveData where
  category : Option String
deriving DecidableEq, Repr

/-- The four collaborator read interfaces of spec section 6, consumed by
`RaidManager` as `self.species_db`, `self.moves_db`
(`MovesDatabase.get_move`), and `self.learnset_db`
(`LearnsetDatabase.get_moves_at_level` / `get_starting_moves`). -/
structure Collaborators where
  get_species : String → Option SpeciesData
  get_move : String → Option MoveData
  get_moves_at_level : String → Int → List String
  get_starting_moves : String → Int → Nat → List String

/-- Modelled from the spec: the Pokemon entity (models.py, outside
src/).  `create_manual_raid` constructs it from the species record and
the clamped level (`Pokemon(species_data=..., level=level,
owner_discord_id=None)`) and then sets the three raid-boss fields; the
spec (section 4.2) says it carries the stat multiplier and level cap as
metadata.  `summary` later reads `species_name`, `species_dex_number`
and `level` from it. -/
structure Pokemon where
  species_name : String
  species_dex_number : Int
  level : Int
  owner_discord_id : Option Int
  is_raid_boss : Bool
  raid_stat_multiplier : Rat
  raid_level_cap : Int
deriving DecidableEq, Repr

/-- RaidPokemonConfig from src/raid_manager.py lines 13-21: lightweight
configuration for a raid boss.  The dataclass defaults
(`source="random"`, `raid_stat_multiplier=2.0`,
`enrages_after_turns=None`) are supplied at each construction site. -/
structure RaidPokemonConfig where
  pokemon : Pokemon
  move_ids : List String
  source : String
  raid_stat_multiplier : Rat
  enrages_after_turns : Option Int
deriving DecidableEq, Repr

/-- RaidEncounter from src/raid_manager.py lines 24-32: an active raid
encounter at a location.  `created_at` (Python `time.time()`, a float)
is modelled as an abstract integer timestamp; nothing computes on it. -/
structure RaidEncounter where
  raid_id : String
  location_id : String
  created_by : Int
  created_at : Int
  pokemon_config : RaidPokemonConfig
deriving DecidableEq, Repr

/-- The mutable registry state of `RaidManager`:
`self.active_raids : Dict[str, RaidEncounter]` (line 58). -/
@[ext]
structure RaidState where
  active_raids : String → Option RaidEncounter

/-- RaidManager.MAX_LEVEL = 300 (line 52). -/
def MAX_LEVEL : Int := 300

/-- Level clamping from line 75:
`level = max(1, min(level, self.MAX_LEVEL))`. -/
def clampLevel (level : Int) : Int := max 1 (min level MAX_LEVEL)

/-- The attacking-category test from lines 130-131:
`move_data = self.moves_db.get_move(move_id) or {}` followed by
`move_data.get("category") in {"physical", "special"}`.  A missing move
record or missing category yields `none`, which is not in the set. -/
def moveIsAttacking (c : Collaborators) (move_id : String) : Bool :=
  let category := (c.get_move move_id).bind (fun move_data => move_data.category)
  category == some "physical" || category == some "special"

/-- One step of the classification loop of lines 129-136: route a move
id into the attack list or the support list, keeping only the first
occurrence in each. -/
def classifyStep (c : Collaborators) (acc : List String × List String)
    (move_id : String) : List String × List String :=
  if moveIsAttacking c move_id then
    if move_id ∈ acc.1 then acc else (acc.1 ++ [move_id], acc.2)
  else
    if move_id ∈ acc.2 then acc else (acc.1, acc.2 ++ [move_id])

/-- The fallback loop of lines 144-148:
for each fallback move id, append it when not already selected, and stop
as soon as the selection holds 6 entries.  The Python `break` test runs
after the (possible) append, exactly as here. -/
def fallback_fill : List String → List String → List String
  | [], selected => selected
  | move_id :: rest, selected =>
    let selected := if move_id ∈ selected then selected else selected ++ [move_id]
    if 6 ≤ selected.length then selected else fallback_fill rest selected

/-- Lines 125-140 of `_generate_raid_moveset`: fetch the learnset,
partition it into deduplicated attack and support lists, take up to 4
attack moves, then fill up to a total of 6 from the support list
(`selected.extend(support_moves[: max(0, 6 - len(selected))])`). -/
def preFallbackSelection (c : Collaborators) (species_name : String)
    (level : Int) : List String :=
  let available_moves := c.get_moves_at_level species_name level
  let lists := available_moves.foldl (classifyStep c) ([], [])
  let attack_moves := lists.1
  let support_moves := lists.2
  let selected := attack_moves.take 4
  selected ++ support_moves.take (max 0 (6 - (selected.length : Int))).toNat

/-- RaidManager._generate_raid_moveset (lines 122-150): pick up to six
moves, prioritizing attacking moves; when fewer than 6 were selected,
fill from `get_starting_moves(species_name, level=level, max_moves=6)`;
finally truncate to 6 (`return selected[:6]`). -/
def generate_raid_moveset (c : Collaborators) (species_name : String)
    (level : Int) : List String :=
  let selected := preFallbackSelection c species_name level
  let selected :=
    if selected.length < 6 then
      fallback_fill (c.get_starting_moves species_name level 6) selected
    else selected
  selected.take 6

/-- Python truthiness of an optional list (`move_ids or fallback`): the
first operand wins unless it is `None` or the empty list. -/
def pyOrList (move_ids : Option (List String)) (fallback : List String) :
    List String :=
  match move_ids with
  | none => fallback
  | some l => if l = [] then fallback else l

/-- RaidManager.create_manual_raid (lines 63-107).  `raid_id` stands for
`str(uuid.uuid4())` and `now` for `time.time()`, both produced outside
this core.  Returns the encounter (or the error) together with the
updated registry; on error the registry is the unchanged input, since
the source raises before its single mutation on line 106. -/
def create_manual_raid (c : Collaborators) (st : RaidState)
    (location_id species_identifier : String) (level : Int)
    (created_by : Int) (move_ids : Option (List String)) (source : String)
    (raid_id : String) (now : Int) :
    Except String RaidEncounter × RaidState :=
  let level := clampLevel level
  match c.get_species species_identifier with
  | none => (Except.error ("Unknown species: " ++ species_identifier), st)
  | some species_data =>
    let pokemon : Pokemon :=
      { species_name := species_data.name
        species_dex_number := species_data.dex_number
        level := level
        owner_discord_id := none
        is_raid_boss := true
        raid_stat_multiplier := 2
        raid_level_cap := MAX_LEVEL }
    let resolved_moves :=
      pyOrList move_ids (generate_raid_moveset c species_data.name level)
    let config : RaidPokemonConfig :=
      { pokemon := pokemon
        move_ids := resolved_moves
        source := source
        raid_stat_multiplier := 2
        enrages_after_turns := none }
    let encounter : RaidEncounter :=
      { raid_id := raid_id
        location_id := location_id
        created_by := created_by
        created_at := now
        pokemon_config := config }
    (Except.ok encounter,
      ⟨fun loc => if loc = location_id then some encounter
                  else st.active_raids loc⟩)

/-- RaidManager.get_raid (lines 109-112): pure lookup. -/
def get_raid (st : RaidState) (location_id : String) :
    Option RaidEncounter :=
  st.active_raids location_id

/-- RaidManager.clear_raid (lines 114-117):
`self.active_raids.pop(location_id, None)` removes the entry when
present and is a no-op otherwise. -/
def clear_raid (st : RaidState) (location_id : String) : RaidState :=
  ⟨fun loc => if loc = location_id then none else st.active_raids loc⟩

/-! Specification-side list combinators.  The spec (section 4.1, step 2)
speaks of the candidates of each category "deduplicated by identifier,
keeping first occurrence only"; `dedupAvoiding avoid l` keeps the first
occurrence of each identifier of `l` not already in `avoid`, and
`dedupKeepFirst` is the plain first-occurrence dedup. -/

/-- Keep, in order, the first occurrence of every element of the second
list that does not occur in the first list. -/
def dedupAvoiding : List String → List String → List String
  | _, [] => []
  | avoid, m :: rest =>
    if m ∈ avoid then dedupAvoiding avoid rest
    else m :: dedupAvoiding (m :: avoid) rest

/-- Keep the first occurrence of every element, in order. -/
def dedupKeepFirst (l : List String) : List String := dedupAvoiding [] l

/-- The distinct attacking-category moves of the learnset, in learnset
order (spec section 4.1, step 2, attacking side). -/
def attackCandidates (c : Collaborators) (species_name : String)
    (level : Int) : List String :=
  dedupKeepFirst
    ((c.get_moves_at_level species_name level).filter (moveIsAttacking c))

/-- The distinct non-attacking moves of the learnset, in learnset order
(spec section 4.1, step 2, support side). -/
def supportCandidates (c : Collaborators) (species_name : String)
    (level : Int) : List String :=
  dedupKeepFirst
    ((c.get_moves_at_level species_name level).filter
      (fun m => !(moveIsAttacking c m)))

/-! State-threaded embedding of the resolver, for the side-effect claim.
The Python method runs against the mutable object graph (`self` with its
registry and the collaborator databases); `World` is that graph, and
each collaborator call below threads it explicitly, so that "performs no
writes to any state" is the provable statement that the output world
equals the input world. -/

/-- The full mutable state visible to `_generate_raid_moveset`: the
collaborator databases it queries and the registry it could, in
principle, write. -/
structure World where
  collabs : Collaborators
  active_raids : String → Option RaidEncounter

/-- Collaborator call `self.learnset_db.get_moves_at_level`, threading
the world (the interface is read-only, spec section 6). -/
def World.get_moves_at_level (w : World) (s : String) (lv : Int) :
    List String × World :=
  (w.collabs.get_moves_at_level s lv, w)

/-- Collaborator call `self.moves_db.get_move`, threading the world. -/
def World.get_move (w : World) (m : String) : Option MoveData × World :=
  (w.collabs.get_move m, w)

/-- Collaborator call `self.learnset_db.get_starting_moves`, threading
the world. -/
def World.get_starting_moves (w : World) (s : String) (lv : Int)
    (mx : Nat) : List String × World :=
  (w.collabs.get_starting_moves s lv mx, w)

/-- The classification loop of lines 129-136 with the world threaded
through every `get_move` call. -/
def classify_st (w : World) :
    List String → List String × List String →
    (List String × List String) × World
  | [], acc => (acc, w)
  | move_id :: rest, acc =>
    let pair := w.get_move move_id
    let category := pair.1.bind (fun move_data => move_data.category)
    let w := pair.2
    if category == some "physical" || category == some "special" then
      if move_id ∈ acc.1 then classify_st w rest acc
      else classify_st w rest (acc.1 ++ [move_id], acc.2)
    else
      if move_id ∈ acc.2 then classify_st w rest acc
      else classify_st w rest (acc.1, acc.2 ++ [move_id])

/-- `_generate_raid_moveset` with the world threaded through every
collaborator call, mirroring lines 122-150 statement by statement. -/
def generate_raid_moveset_st (w : World) (species_name : String)
    (level : Int) : List String × World :=
  let fetched := w.get_moves_at_level species_name level
  let available_moves := fetched.1
  let w := fetched.2
  let classified := classify_st w available_moves ([], [])
  let attack_moves := classified.1.1
  let support_moves := classified.1.2
  let w := classified.2
  let selected := attack_moves.take 4
  let selected :=
    selected ++ support_moves.take (max 0 (6 - (selected.length : Int))).toNat
  if selected.length < 6 then
    let fb := w.get_starting_moves species_name level 6
    ((fallback_fill fb.1 selected).take 6, fb.2)
  else (selected.take 6, w)

/-! Heap model for the summary projection.  Python lists are mutable
heap objects; `RaidEncounter.summary` (lines 34-46) builds its dict with
`"move_ids": list(self.pokemon_config.move_ids)`, a fresh copy.  To
state that mutating the copy leaves the stored config unchanged, lists
are refined to references into an explicit heap of lists. -/

/-- A heap of mutable string lists: the contents at each address, and
the next-fresh address (every address at or beyond `next` is
unallocated). -/
structure ListHeap where
  data : Nat → List String
  next : Nat

/-- Read the list at an address. -/
def ListHeap.read (h : ListHeap) (p : Nat) : List String := h.data p

/-- Overwrite the list at an address (a Python in-place list
mutation). -/
def ListHeap.write (h : ListHeap) (p : Nat) (l : List String) : ListHeap :=
  ⟨fun q => if q = p then l else h.data q, h.next⟩

/-- Allocate a fresh list object with the given contents (what
`list(xs)` does). -/
def ListHeap.alloc (h : ListHeap) (l : List String) : Nat × ListHeap :=
  (h.next, ⟨fun q => if q = h.next then l else h.data q, h.next + 1⟩)

/-- RaidPokemonConfig with its `move_ids` list refined to a heap
reference. -/
structure RaidPokemonConfigRef where
  pokemon : Pokemon
  move_ids_ref : Nat
  source : String

/-- RaidEncounter with its config's move list held by reference. -/
structure RaidEncounterRef where
  raid_id : String
  location_id : String
  created_by : Int
  created_at : Int
  pokemon_config : RaidPokemonConfigRef

/-- The summary dict of lines 39-46, with its `move_ids` entry as a heap
reference.  The dict itself is freshly constructed on every call (a
Python dict literal) and is never stored by this core. -/
structure SummaryDict where
  raid_id : String
  species_name : String
  species_dex_number : Int
  level : Int
  source : String
  move_ids_ref : Nat

/-- RaidEncounter.summary (lines 34-46): expose a dict summary; the
`move_ids` entry is `list(self.pokemon_config.move_ids)`, a freshly
allocated copy of the config's list. -/
def RaidEncounterRef.summary (e : RaidEncounterRef) (h : ListHeap) :
    SummaryDict × ListHeap :=
  let copied := h.alloc (h.read e.pokemon_config.move_ids_ref)
  ({ raid_id := e.raid_id
     species_name := e.pokemon_config.pokemon.species_name
     species_dex_number := e.pokemon_config.pokemon.species_dex_number
     level := e.pokemon_config.pokemon.level
     source := e.pokemon_config.source
     move_ids_ref := copied.1 }, copied.2)

/-! Concrete collaborator instances, used by witnesses and
counterexamples. -/

/-- A small concrete collaborator bundle: one known species, three moves
with metadata, a learnset with a duplicate, and a seven-move fallback
list (the spec section 8 example shape). -/
def cEx : Collaborators where
  get_species := fun s => if s = "pikachu" then some ⟨"pikachu", 25⟩ else none
  get_move := fun m =>
    if m = "tackle" then some ⟨some "physical"⟩
    else if m = "ember" then some ⟨some "special"⟩
    else if m = "growl" then some ⟨some "status"⟩
    else none
  get_moves_at_level := fun _ _ => ["tackle", "growl", "tackle", "ember"]
  get_starting_moves := fun _ _ _ =>
    ["scratch", "growl", "bite", "leer", "tailwhip", "tackle", "slash"]

/-- A concrete collaborator bundle with four distinct attacking moves
and two distinct support moves in the learnset. -/
def cRich : Collaborators where
  get_species := fun s => if s = "pikachu" then some ⟨"pikachu", 25⟩ else none
  get_move := fun m =>
    if m = "a1" || m = "a2" then some ⟨some "physical"⟩
    else if m = "a3" || m = "a4" then some ⟨some "special"⟩
    else if m = "s1" then some ⟨some "status"⟩
    else none
  get_moves_at_level := fun _ _ => ["a1", "s1", "a2", "s2", "a3", "a4", "s3"]
  get_starting_moves := fun _ _ _ => []

/-- The empty registry. -/
def st0 : RaidState := ⟨fun _ => none⟩

/-- A concrete collaborator bundle whose learnset is empty and whose
fallback offers three distinct starting moves. -/
def cEmptyLearnset : Collaborators where
  get_species := fun _ => none
  get_move := fun _ => none
  get_moves_at_level := fun _ _ => []
  get_starting_moves := fun _ _ _ => ["scratch", "growl", "bite"]

/-- A concrete heap with one allocated list at address 0. -/
def heap0 : ListHeap := ⟨fun p => if p = 0 then ["tackle", "growl"] else [], 1⟩

/-- A concrete encounter whose config's move list lives at address 0 of
`heap0`. -/
def enc0 : RaidEncounterRef :=
  { raid_id := "r0"
    location_id := "X"
    created_by := 1
    created_at := 0
    pokemon_config :=
      { pokemon :=
          { species_name := "pikachu"
            species_dex_number := 25
            level := 5
            owner_discord_id := none
            is_raid_boss := true
            raid_stat_multiplier := 2
            raid_level_cap := MAX_LEVEL }
        move_ids_ref := 0
        source := "manual" } }

/-! Helper lemmas. -/

theorem dedupAvoiding_congr (a₁ a₂ l : List String)
    (h : ∀ x, x ∈ a₁ ↔ x ∈ a₂) : dedupAvoiding a₁ l = dedupAvoiding a₂ l := by
  induction l generalizing a₁ a₂ with
  | nil => rfl
  | cons m rest ih =>
    by_cases hm : m ∈ a₁
    · have hm₂ : m ∈ a₂ := (h m).1 hm
      simp only [dedupAvoiding, if_pos hm, if_pos hm₂]
      exact ih a₁ a₂ h
    · have hm₂ : m ∉ a₂ := fun hx => hm ((h m).2 hx)
      simp only [dedupAvoiding, if_neg hm, if_neg hm₂]
      refine congrArg _ (ih _ _ ?_)
      intro x
      simp only [List.mem_cons, h x]

theorem mem_dedupAvoiding (x : String) (avoid l : List String) :
    x ∈ dedupAvoiding avoid l ↔ x ∈ l ∧ x ∉ avoid := by
  induction l generalizing avoid with
  | nil => simp [dedupAvoiding]
  | cons m rest ih =>
    by_cases hm : m ∈ avoid
    · simp only [dedupAvoiding, if_pos hm, ih, List.mem_cons]
      constructor
      · rintro ⟨hx, hav⟩
        exact ⟨Or.inr hx, hav⟩
      · rintro ⟨hx | hx, hav⟩
        · exact absurd (hx ▸ hm) hav
        · exact ⟨hx, hav⟩
    · simp only [dedupAvoiding, if_neg hm, List.mem_cons, ih]
      constructor
      · rintro (rfl | ⟨hx, hav⟩)
        · exact ⟨Or.inl rfl, hm⟩
        · exact ⟨Or.inr hx, fun hx2 => hav (Or.inr hx2)⟩
      · rintro ⟨rfl | hx, hav⟩
        · exact Or.inl rfl
        · by_cases hxm : x = m
          · exact Or.inl hxm
          · exact Or.inr ⟨hx, by simp [List.mem_cons, hxm, hav]⟩

theorem nodup_dedupAvoiding (avoid l : List String) :
    (dedupAvoiding avoid l).Nodup := by
  induction l generalizing avoid with
  | nil => simp [dedupAvoiding]
  | cons m rest ih =>
    by_cases hm : m ∈ avoid
    · simp only [dedupAvoiding, if_pos hm]
      exact ih avoid
    · simp only [dedupAvoiding, if_neg hm, List.nodup_cons]
      refine ⟨fun hx => ?_, ih _⟩
      have := (mem_dedupAvoiding m (m :: avoid) rest).1 hx
      exact this.2 (List.mem_cons_self m avoid)

/-- The single interleaved classification loop of lines 129-136 computes,
for each category, the first-occurrence dedup of the learnset filtered to
that category. -/
theorem foldl_classifyStep_eq (c : Collaborators) (l atk sup : List String) :
    l.foldl (classifyStep c) (atk, sup) =
      (atk ++ dedupAvoiding atk (l.filter (moveIsAttacking c)),
       sup ++ dedupAvoiding sup
         (l.filter (fun m => !(moveIsAttacking c m)))) := by
  induction l generalizing atk sup with
  | nil => simp [dedupAvoiding]
  | cons m rest ih =>
    by_cases ha : moveIsAttacking c m
    · by_cases hm : m ∈ atk
      · have hstep : classifyStep c (atk, sup) m = (atk, sup) := by
          simp [classifyStep, ha, hm]
        rw [List.foldl_cons, hstep, ih, List.filter_cons, List.filter_cons]
        simp [ha, dedupAvoiding, hm]
      · have hstep : classifyStep c (atk, sup) m = (atk ++ [m], sup) := by
          simp [classifyStep, ha, hm]
        rw [List.foldl_cons, hstep, ih, List.filter_cons, List.filter_cons]
        simp only [ha, Bool.not_true, Bool.false_eq_true, if_true, if_false,
          ite_true, ite_false, Prod.mk.injEq]
        refine ⟨?_, trivial⟩
        rw [dedupAvoiding, if_neg hm, List.append_assoc, List.singleton_append]
        refine congrArg _ (congrArg _ ?_)
        exact dedupAvoiding_congr _ _ _ (fun x => by
          simp [List.mem_append, List.mem_cons, or_comm])
    · by_cases hm : m ∈ sup
      · have hstep : classifyStep c (atk, sup) m = (atk, sup) := by
          simp [classifyStep, ha, hm]
        rw [List.foldl_cons, hstep, ih, List.filter_cons, List.filter_cons]
        simp [ha, dedupAvoiding, hm]
      · have hstep : classifyStep c (atk, sup) m = (atk, sup ++ [m]) := by
          simp [classifyStep, ha, hm]
        rw [List.foldl_cons, hstep, ih, List.filter_cons, List.filter_cons]
        simp only [ha, Bool.not_false, Bool.false_eq_true, if_true, if_false,
          ite_true, ite_false, Prod.mk.injEq, Bool.not_eq_true]
        refine ⟨trivial, ?_⟩
        rw [dedupAvoiding, if_neg hm, List.append_assoc, List.singleton_append]
        refine congrArg _ (congrArg _ ?_)
        exact dedupAvoiding_congr _ _ _ (fun x => by
          simp [List.mem_append, List.mem_cons, or_comm])

/-- The fallback loop appends, after the current selection, the first
occurrences of fallback moves not already selected, truncated so that
the total stops at 6. -/
theorem fallback_fill_eq (fb sel : List String) (h : sel.length < 6) :
    fallback_fill fb sel =
      sel ++ (dedupAvoiding sel fb).take (6 - sel.length) := by
  induction fb generalizing sel with
  | nil => simp [fallback_fill, dedupAvoiding]
  | cons m rest ih =>
    by_cases hm : m ∈ sel
    · have h6 : ¬ (6 ≤ sel.length) := by omega
      simp only [fallback_fill, if_pos hm, if_neg h6, dedupAvoiding]
      exact ih sel h
    · simp only [fallback_fill, if_neg hm, List.length_append,
        List.length_singleton, dedupAvoiding]
      by_cases h6 : 6 ≤ sel.length + 1
      · have h5 : sel.length = 5 := by omega
        rw [if_pos h6, h5]
        norm_num
      · rw [if_neg h6]
        have hlen : (sel ++ [m]).length < 6 := by
          simp only [List.length_append, List.length_singleton]
          omega
        rw [ih _ hlen]
        have hsub : 6 - sel.length = (6 - (sel ++ [m]).length) + 1 := by
          simp only [List.length_append, List.length_singleton]
          omega
        rw [hsub, List.take_succ_cons, List.append_assoc,
          List.singleton_append]
        refine congrArg _ (congrArg _ (congrArg _ ?_))
        exact dedupAvoiding_congr _ _ _ (fun x => by
          simp [List.mem_append, List.mem_cons, or_comm])

/-- The fallback loop preserves freedom from duplicates. -/
theorem nodup_fallback_fill (fb sel : List String) (h : sel.Nodup) :
    (fallback_fill fb sel).Nodup := by
  induction fb generalizing sel with
  | nil => simpa [fallback_fill]
  | cons m rest ih =>
    by_cases hm : m ∈ sel
    · simp only [fallback_fill, if_pos hm]
      split
      · exact h
      · exact ih sel h
    · have h2 : (sel ++ [m]).Nodup := by
        simp [List.nodup_append, h, hm]
      simp only [fallback_fill, if_neg hm]
      split
      · exact h2
      · exact ih _ h2

/-- Starting below 6 entries, the fallback loop never grows the
selection beyond 6. -/
theorem length_fallback_fill_le (fb sel : List String)
    (h : sel.length < 6) : (fallback_fill fb sel).length ≤ 6 := by
  induction fb generalizing sel with
  | nil =>
    simp only [fallback_fill]
    omega
  | cons m rest ih =>
    by_cases hm : m ∈ sel
    · simp only [fallback_fill, if_pos hm]
      split
      · omega
      · exact ih sel h
    · simp only [fallback_fill, if_neg hm]
      split
      · next h6 =>
        simp only [List.length_append, List.length_singleton] at h6 ⊢
        omega
      · next h6 =>
        refine ih _ ?_
        simp only [List.length_append, List.length_singleton] at h6 ⊢
        omega

/-- The pre-fallback selection is the first 4 distinct attack candidates
followed by support candidates filling up to 6 slots. -/
theorem preFallbackSelection_eq (c : Collaborators) (s : String) (lv : Int) :
    preFallbackSelection c s lv =
      (attackCandidates c s lv).take 4 ++
        (supportCandidates c s lv).take
          (max 0 (6 - (((attackCandidates c s lv).take 4).length : Int))).toNat := by
  simp only [preFallbackSelection, attackCandidates, supportCandidates,
    dedupKeepFirst, foldl_classifyStep_eq, List.nil_append]

/-- Every attack candidate is of attacking category. -/
theorem mem_attackCandidates {c : Collaborators} {s : String} {lv : Int}
    {x : String} (hx : x ∈ attackCandidates c s lv) :
    moveIsAttacking c x = true := by
  unfold attackCandidates dedupKeepFirst at hx
  have := (mem_dedupAvoiding x [] _).1 hx
  exact (List.mem_filter.1 this.1).2

/-- Every support candidate is of non-attacking category. -/
theorem mem_supportCandidates {c : Collaborators} {s : String} {lv : Int}
    {x : String} (hx : x ∈ supportCandidates c s lv) :
    moveIsAttacking c x = false := by
  unfold supportCandidates dedupKeepFirst at hx
  have := (mem_dedupAvoiding x [] _).1 hx
  have h2 := (List.mem_filter.1 this.1).2
  simpa using h2

/-- The attack candidate list holds no duplicates. -/
theorem nodup_attackCandidates (c : Collaborators) (s : String) (lv : Int) :
    (attackCandidates c s lv).Nodup := nodup_dedupAvoiding _ _

/-- The support candidate list holds no duplicates. -/
theorem nodup_supportCandidates (c : Collaborators) (s : String) (lv : Int) :
    (supportCandidates c s lv).Nodup := nodup_dedupAvoiding _ _

/-- The pre-fallback selection holds no duplicates: each candidate list
is deduplicated and the two categories cannot overlap. -/
theorem preFallbackSelection_nodup (c : Collaborators) (s : String)
    (lv : Int) : (preFallbackSelection c s lv).Nodup := by
  rw [preFallbackSelection_eq, List.nodup_append]
  refine ⟨(nodup_attackCandidates c s lv).sublist (List.take_sublist _ _),
    (nodup_supportCandidates c s lv).sublist (List.take_sublist _ _), ?_⟩
  intro x hx hx2
  have h1 := mem_attackCandidates (List.take_sublist _ _ |>.mem hx)
  have h2 := mem_supportCandidates (List.take_sublist _ _ |>.mem hx2)
  rw [h1] at h2
  simp at h2

/-- Resolver unfolding in the sparse case (fallback consulted). -/
theorem generate_eq_of_lt (c : Collaborators) (s : String) (lv : Int)
    (h : (preFallbackSelection c s lv).length < 6) :
    generate_raid_moveset c s lv =
      (fallback_fill (c.get_starting_moves s lv 6)
        (preFallbackSelection c s lv)).take 6 := by
  simp only [generate_raid_moveset, if_pos h]

/-- Resolver unfolding in the saturated case (no fallback). -/
theorem generate_eq_of_ge (c : Collaborators) (s : String) (lv : Int)
    (h : ¬ (preFallbackSelection c s lv).length < 6) :
    generate_raid_moveset c s lv = (preFallbackSelection c s lv).take 6 := by
  simp only [generate_raid_moveset, if_neg h]

/-- The resolver output never exceeds 6 moves. -/
theorem generate_raid_moveset_length_le (c : Collaborators) (s : String)
    (lv : Int) : (generate_raid_moveset c s lv).length ≤ 6 := by
  by_cases h : (preFallbackSelection c s lv).length < 6
  · rw [generate_eq_of_lt c s lv h]
    exact List.length_take_le _ _
  · rw [generate_eq_of_ge c s lv h]
    exact List.length_take_le _ _

/-- The resolver output holds no duplicate identifiers. -/
theorem generate_raid_moveset_nodup (c : Collaborators) (s : String)
    (lv : Int) : (generate_raid_moveset c s lv).Nodup := by
  by_cases h : (preFallbackSelection c s lv).length < 6
  · rw [generate_eq_of_lt c s lv h]
    exact (nodup_fallback_fill _ _
      (preFallbackSelection_nodup c s lv)).sublist (List.take_sublist _ _)
  · rw [generate_eq_of_ge c s lv h]
    exact (preFallbackSelection_nodup c s lv).sublist (List.take_sublist _ _)

/-- With at least 4 attack candidates the pre-fallback selection is the
first 4 attack candidates followed by the first 2 support
candidates. -/
theorem preFallbackSelection_of_rich (c : Collaborators) (s : String)
    (lv : Int) (h4 : 4 ≤ (attackCandidates c s lv).length) :
    preFallbackSelection c s lv =
      (attackCandidates c s lv).take 4 ++ (supportCandidates c s lv).take 2 := by
  rw [preFallbackSelection_eq]
  have hl : ((attackCandidates c s lv).take 4).length = 4 := by
    rw [List.length_take]
    omega
  rw [hl]
  norm_num
  rfl

/-- The state-threaded classification loop equals the pure fold and
returns the world unchanged. -/
theorem classify_st_eq (w : World) (l : List String)
    (acc : List String × List String) :
    classify_st w l acc = (l.foldl (classifyStep w.collabs) acc, w) := by
  induction l generalizing acc with
  | nil => rfl
  | cons m rest ih =>
    have hcond : ((w.collabs.get_move m).bind (fun md => md.category)
          == some "physical" ||
        (w.collabs.get_move m).bind (fun md => md.category)
          == some "special") = moveIsAttacking w.collabs m := rfl
    simp only [classify_st, World.get_move, List.foldl_cons, hcond]
    by_cases ha : moveIsAttacking w.collabs m
    · simp only [ha, if_true, ite_true]
      by_cases hm : m ∈ acc.1
      · simp only [if_pos hm, ih, classifyStep, ha, ite_true]
      · simp only [if_neg hm, ih, classifyStep, ha, ite_true]
    · simp only [ha, if_false, ite_false, Bool.false_eq_true]
      by_cases hm : m ∈ acc.2
      · simp only [if_pos hm, ih, classifyStep, ha, Bool.false_eq_true,
          ite_false, if_false]
      · simp only [if_neg hm, ih, classifyStep, ha, Bool.false_eq_true,
          ite_false, if_false]

/-- The state-threaded resolver computes the pure resolver's output and
returns the world unchanged. -/
theorem generate_st_eq (w : World) (s : String) (lv : Int) :
    generate_raid_moveset_st w s lv =
      (generate_raid_moveset w.collabs s lv, w) := by
  simp only [generate_raid_moveset_st, World.get_moves_at_level,
    World.get_starting_moves, classify_st_eq, generate_raid_moveset,
    preFallbackSelection]
  split
  · rfl
  · rfl

/-- C1: for every learnset result containing at least 4 distinct
attacking-category moves and at least 2 distinct non-attacking moves,
the resolver's output is exactly the first 4 distinct attacking moves in
learnset order followed by the first two distinct non-attacking moves in
learnset order: its first 4 entries are the former and its entries 5-6
are the latter. -/
theorem moveset_priority_split (c : Collaborators) (s : String) (lv : Int)
    (h4 : 4 ≤ (attackCandidates c s lv).length)
    (h2 : 2 ≤ (supportCandidates c s lv).length) :
    generate_raid_moveset c s lv =
      (attackCandidates c s lv).take 4 ++ (supportCandidates c s lv).take 2 ∧
    (generate_raid_moveset c s lv).take 4 = (attackCandidates c s lv).take 4 ∧
    (generate_raid_moveset c s lv).drop 4 = (supportCandidates c s lv).take 2 := by
  have hpre := preFallbackSelection_of_rich c s lv h4
  have hlen4 : ((attackCandidates c s lv).take 4).length = 4 := by
    rw [List.length_take]
    omega
  have hlen : (preFallbackSelection c s lv).length = 6 := by
    rw [hpre, List.length_append, hlen4, List.length_take]
    omega
  have hge : ¬ (preFallbackSelection c s lv).length < 6 := by omega
  have hmain : generate_raid_moveset c s lv =
      (attackCandidates c s lv).take 4 ++ (supportCandidates c s lv).take 2 := by
    rw [generate_eq_of_ge c s lv hge, hpre]
    exact List.take_of_length_le (by rw [← hpre, hlen])
  refine ⟨hmain, ?_, ?_⟩
  · rw [hmain]
    exact List.take_left' hlen4
  · rw [hmain]
    exact List.drop_left' hlen4

/-- Witness for C1: a learnset with attack candidates a1-a4 and support
candidates s1-s3 yields exactly the 4+2 split. -/
theorem moveset_priority_split_witness :
    4 ≤ (attackCandidates cRich "pikachu" 5).length ∧
    2 ≤ (supportCandidates cRich "pikachu" 5).length ∧
    generate_raid_moveset cRich "pikachu" 5 =
      (attackCandidates cRich "pikachu" 5).take 4 ++
        (supportCandidates cRich "pikachu" 5).take 2 :=
  ⟨by decide, by decide,
    (moveset_priority_split cRich "pikachu" 5 (by decide) (by decide)).1⟩

/-- C2: for every species name, level and collaborator responses, the
resolver's output has length at most 6 and no duplicate move
identifiers. -/
theorem moveset_bounded_nodup (c : Collaborators) (s : String) (lv : Int) :
    (generate_raid_moveset c s lv).length ≤ 6 ∧
    (generate_raid_moveset c s lv).Nodup :=
  ⟨generate_raid_moveset_length_le c s lv, generate_raid_moveset_nodup c s lv⟩

/-- C3: with an empty learnset and a fallback of three distinct moves
A, B, C the resolver returns exactly [A, B, C]; in general, when the
pre-fallback selection has fewer than 6 moves, fallback moves not
already present are appended in fallback order (first occurrences only)
until the fallback is exhausted or the result reaches 6 entries. -/
theorem moveset_fallback_behavior :
    (∀ (c : Collaborators) (s : String) (lv : Int) (A B C : String),
      c.get_moves_at_level s lv = [] →
      c.get_starting_moves s lv 6 = [A, B, C] →
      A ≠ B → A ≠ C → B ≠ C →
      generate_raid_moveset c s lv = [A, B, C]) ∧
    (∀ (c : Collaborators) (s : String) (lv : Int),
      (preFallbackSelection c s lv).length < 6 →
      generate_raid_moveset c s lv =
        preFallbackSelection c s lv ++
          (dedupAvoiding (preFallbackSelection c s lv)
            (c.get_starting_moves s lv 6)).take
            (6 - (preFallbackSelection c s lv).length)) := by
  have partB : ∀ (c : Collaborators) (s : String) (lv : Int),
      (preFallbackSelection c s lv).length < 6 →
      generate_raid_moveset c s lv =
        preFallbackSelection c s lv ++
          (dedupAvoiding (preFallbackSelection c s lv)
            (c.get_starting_moves s lv 6)).take
            (6 - (preFallbackSelection c s lv).length) := by
    intro c s lv h
    rw [generate_eq_of_lt c s lv h, fallback_fill_eq _ _ h]
    refine List.take_of_length_le ?_
    rw [List.length_append]
    have := List.length_take_le (6 - (preFallbackSelection c s lv).length)
      (dedupAvoiding (preFallbackSelection c s lv)
        (c.get_starting_moves s lv 6))
    omega
  refine ⟨?_, partB⟩
  intro c s lv A B C hav hfb hAB hAC hBC
  have hpre : preFallbackSelection c s lv = [] := by
    simp [preFallbackSelection, hav]
  have hlt : (preFallbackSelection c s lv).length < 6 := by
    rw [hpre]
    decide
  rw [partB c s lv hlt, hpre, hfb]
  have hBA : ¬ B = A := fun h => hAB h.symm
  have hCA : ¬ C = A := fun h => hAC h.symm
  have hCB : ¬ C = B := fun h => hBC h.symm
  simp [dedupAvoiding, hBA, hCA, hCB]

/-- Witness for C3: an empty learnset with fallback
[scratch, growl, bite] returns exactly that list, and a concrete sparse
learnset takes the general fallback-append form. -/
theorem moveset_fallback_behavior_witness :
    generate_raid_moveset cEmptyLearnset "x" 1 = ["scratch", "growl", "bite"] ∧
    (preFallbackSelection cEx "pikachu" 5).length < 6 ∧
    generate_raid_moveset cEx "pikachu" 5 =
      preFallbackSelection cEx "pikachu" 5 ++
        (dedupAvoiding (preFallbackSelection cEx "pikachu" 5)
          (cEx.get_starting_moves "pikachu" 5 6)).take
          (6 - (preFallbackSelection cEx "pikachu" 5).length) :=
  ⟨moveset_fallback_behavior.1 cEmptyLearnset "x" 1 "scratch" "growl" "bite"
      rfl rfl (by decide) (by decide) (by decide),
    by decide,
    moveset_fallback_behavior.2 cEx "pikachu" 5 (by decide)⟩

/-- C4: when the species collaborator returns nothing, create returns a
species-not-found error whose message names the offending identifier
(it propagates as the operation's result), and the registry is exactly
as it was before the call. -/
theorem create_unknown_species (c : Collaborators) (st : RaidState)
    (location_id species_identifier : String) (level created_by : Int)
    (move_ids : Option (List String)) (source raid_id : String) (now : Int)
    (h : c.get_species species_identifier = none) :
    (create_manual_raid c st location_id species_identifier level created_by
        move_ids source raid_id now).1 =
      Except.error ("Unknown species: " ++ species_identifier) ∧
    (create_manual_raid c st location_id species_identifier level created_by
        move_ids source raid_id now).2 = st := by
  constructor <;> simp [create_manual_raid, h]

/-- Witness for C4: an unknown identifier produces the named error and
leaves the empty registry intact. -/
theorem create_unknown_species_witness :
    (create_manual_raid cEx st0 "loc" "missing" 5 1 none "manual" "rid" 0).1 =
      Except.error ("Unknown species: " ++ "missing") ∧
    (create_manual_raid cEx st0 "loc" "missing" 5 1 none "manual" "rid" 0).2 =
      st0 :=
  create_unknown_species cEx st0 "loc" "missing" 5 1 none "manual" "rid" 0 rfl

/-- C5: for every integer level, a successful create returns and stores
an encounter whose creature's level equals clamp(level, 1, 300); a known
species never errors, whatever the level. -/
theorem create_clamps_level (c : Collaborators) (st : RaidState)
    (location_id species_identifier : String) (level created_by : Int)
    (move_ids : Option (List String)) (source raid_id : String) (now : Int)
    (sd : SpeciesData) (h : c.get_species species_identifier = some sd) :
    ((create_manual_raid c st location_id species_identifier level created_by
        move_ids source raid_id now).1.map
      (fun e => e.pokemon_config.pokemon.level)) =
      Except.ok (clampLevel level) ∧
    ((create_manual_raid c st location_id species_identifier level created_by
        move_ids source raid_id now).2.active_raids location_id).map
      (fun e => e.pokemon_config.pokemon.level) = some (clampLevel level) ∧
    clampLevel level = max 1 (min level 300) := by
  refine ⟨?_, ?_, rfl⟩
  · simp [create_manual_raid, h, Except.map]
  · simp [create_manual_raid, h, Option.map]

/-- Witness for C5: levels 999 and -7, both out of range, are stored
clamped to 300 and 1 with no error. -/
theorem create_clamps_level_witness :
    ((create_manual_raid cEx st0 "loc" "pikachu" 999 1 none "manual" "rid"
        0).1.map (fun e => e.pokemon_config.pokemon.level)) =
      Except.ok (clampLevel 999) ∧
    clampLevel 999 = 300 ∧
    ((create_manual_raid cEx st0 "loc" "pikachu" (-7) 1 none "manual" "rid"
        0).1.map (fun e => e.pokemon_config.pokemon.level)) =
      Except.ok (clampLevel (-7)) ∧
    clampLevel (-7) = 1 :=
  ⟨(create_clamps_level cEx st0 "loc" "pikachu" 999 1 none "manual" "rid" 0
      ⟨"pikachu", 25⟩ rfl).1, by decide,
   (create_clamps_level cEx st0 "loc" "pikachu" (-7) 1 none "manual" "rid" 0
      ⟨"pikachu", 25⟩ rfl).1, by decide⟩

/-- C6 counterexample: a caller-supplied seven-entry duplicated
move_ids list is stored in the registry verbatim, so the stored config
violates the claimed length/distinctness invariant. -/
theorem supplied_moves_escape_invariant :
    ((create_manual_raid cEx st0 "loc" "pikachu" 10 1
        (some ["x", "x", "x", "x", "x", "x", "x"]) "manual" "rid"
        0).2.active_raids "loc").map (fun e => e.pokemon_config.move_ids) =
      some ["x", "x", "x", "x", "x", "x", "x"] ∧
    ¬ ((["x", "x", "x", "x", "x", "x", "x"] : List String).length ≤ 6 ∧
        (["x", "x", "x", "x", "x", "x", "x"] : List String).Nodup) :=
  ⟨rfl, by decide⟩

/-- C6 amended: for every config stored by create whose move_ids were
resolver-generated (move_ids not supplied, or supplied empty — which the
code also treats as absent), the stored move_ids list is the resolver
output, has length at most 6, and is duplicate-free; caller-supplied
non-empty lists are stored without enforcement. -/
theorem resolver_moves_satisfy_invariant (c : Collaborators) (st : RaidState)
    (location_id species_identifier : String) (level created_by : Int)
    (move_ids : Option (List String)) (source raid_id : String) (now : Int)
    (sd : SpeciesData) (h : c.get_species species_identifier = some sd)
    (hm : move_ids = none ∨ move_ids = some []) :
    ((create_manual_raid c st location_id species_identifier level created_by
        move_ids source raid_id now).1.map
      (fun e => e.pokemon_config.move_ids)) =
      Except.ok (generate_raid_moveset c sd.name (clampLevel level)) ∧
    (∀ e, (create_manual_raid c st location_id species_identifier level
        created_by move_ids source raid_id now).2.active_raids location_id =
        some e →
      e.pokemon_config.move_ids.length ≤ 6 ∧
        e.pokemon_config.move_ids.Nodup) := by
  have hres : pyOrList move_ids
      (generate_raid_moveset c sd.name (clampLevel level)) =
      generate_raid_moveset c sd.name (clampLevel level) := by
    rcases hm with rfl | rfl
    · rfl
    · rfl
  constructor
  · simp [create_manual_raid, h, Except.map, hres]
  · intro e he
    simp only [create_manual_raid, h, if_pos, Option.some.injEq] at he
    rw [← he]
    simp only [hres]
    exact ⟨generate_raid_moveset_length_le c sd.name (clampLevel level),
      generate_raid_moveset_nodup c sd.name (clampLevel level)⟩

/-- Witness for C6 amended: an explicitly empty move_ids list routes
through the resolver, and the stored list satisfies the invariant. -/
theorem resolver_moves_satisfy_invariant_witness :
    ((create_manual_raid cEx st0 "loc" "pikachu" 10 1 (some []) "manual"
        "rid" 0).1.map (fun e => e.pokemon_config.move_ids)) =
      Except.ok (generate_raid_moveset cEx "pikachu" (clampLevel 10)) ∧
    (∀ e, (create_manual_raid cEx st0 "loc" "pikachu" 10 1 (some []) "manual"
        "rid" 0).2.active_raids "loc" = some e →
      e.pokemon_config.move_ids.length ≤ 6 ∧
        e.pokemon_config.move_ids.Nodup) :=
  resolver_moves_satisfy_invariant cEx st0 "loc" "pikachu" 10 1 (some [])
    "manual" "rid" 0 ⟨"pikachu", 25⟩ rfl (Or.inr rfl)

/-- C7 counterexample: supplying move_ids as the empty list does invoke
the resolver (Python `or` treats [] as absent), so the stored move_ids
is the resolver output rather than the supplied empty list. -/
theorem empty_move_ids_invoke_resolver :
    ((create_manual_raid cEx st0 "loc" "pikachu" 10 1 (some []) "manual"
        "rid" 0).2.active_raids "loc").map
      (fun e => e.pokemon_config.move_ids) =
      some ["tackle", "ember", "growl", "scratch", "bite", "leer"] ∧
    (["tackle", "ember", "growl", "scratch", "bite", "leer"] : List String) ≠
      ([] : List String) :=
  ⟨rfl, by decide⟩

/-- C7 amended: when move_ids is supplied and non-empty, the returned
and stored config's move_ids equal the supplied list and the resolver is
not invoked (the result is independent of the three resolver
collaborators); the resolver is invoked exactly when move_ids is not
supplied or is supplied as the empty list. -/
theorem supplied_nonempty_moves_stored (c : Collaborators) (st : RaidState)
    (location_id species_identifier : String) (level created_by : Int)
    (l : List String) (source raid_id : String) (now : Int)
    (sd : SpeciesData) (h : c.get_species species_identifier = some sd)
    (hl : l ≠ []) :
    ((create_manual_raid c st location_id species_identifier level created_by
        (some l) source raid_id now).1.map
      (fun e => e.pokemon_config.move_ids)) = Except.ok l ∧
    ((create_manual_raid c st location_id species_identifier level created_by
        (some l) source raid_id now).2.active_raids location_id).map
      (fun e => e.pokemon_config.move_ids) = some l ∧
    (∀ c₂ : Collaborators, c₂.get_species = c.get_species →
      create_manual_raid c₂ st location_id species_identifier level created_by
          (some l) source raid_id now =
        create_manual_raid c st location_id species_identifier level created_by
          (some l) source raid_id now) ∧
    (∀ mids : Option (List String), mids = none ∨ mids = some [] →
      ((create_manual_raid c st location_id species_identifier level created_by
          mids source raid_id now).1.map
        (fun e => e.pokemon_config.move_ids)) =
        Except.ok (generate_raid_moveset c sd.name (clampLevel level))) := by
  refine ⟨?_, ?_, ?_, ?_⟩
  · simp [create_manual_raid, h, Except.map, pyOrList, hl]
  · simp [create_manual_raid, h, Option.map, pyOrList, hl]
  · intro c₂ hc₂
    simp [create_manual_raid, hc₂, h, pyOrList, hl]
  · intro mids hm
    have hres : pyOrList mids
        (generate_raid_moveset c sd.name (clampLevel level)) =
        generate_raid_moveset c sd.name (clampLevel level) := by
      rcases hm with rfl | rfl <;> rfl
    simp [create_manual_raid, h, Except.map, hres]

/-- Witness for C7 amended: a supplied one-move list is stored verbatim,
independently of the resolver collaborators, while absent or empty
move_ids route through the resolver. -/
theorem supplied_nonempty_moves_stored_witness :
    ((create_manual_raid cEx st0 "loc" "pikachu" 10 1 (some ["pound"])
        "manual" "rid" 0).1.map (fun e => e.pokemon_config.move_ids)) =
      Except.ok ["pound"] ∧
    (∀ c₂ : Collaborators, c₂.get_species = cEx.get_species →
      create_manual_raid c₂ st0 "loc" "pikachu" 10 1 (some ["pound"]) "manual"
          "rid" 0 =
        create_manual_raid cEx st0 "loc" "pikachu" 10 1 (some ["pound"])
          "manual" "rid" 0) ∧
    (∀ mids : Option (List String), mids = none ∨ mids = some [] →
      ((create_manual_raid cEx st0 "loc" "pikachu" 10 1 mids "manual"
          "rid" 0).1.map (fun e => e.pokemon_config.move_ids)) =
        Except.ok (generate_raid_moveset cEx "pikachu" (clampLevel 10))) :=
  ⟨(supplied_nonempty_moves_stored cEx st0 "loc" "pikachu" 10 1 ["pound"]
      "manual" "rid" 0 ⟨"pikachu", 25⟩ rfl (by decide)).1,
   (supplied_nonempty_moves_stored cEx st0 "loc" "pikachu" 10 1 ["pound"]
      "manual" "rid" 0 ⟨"pikachu", 25⟩ rfl (by decide)).2.2.1,
   (supplied_nonempty_moves_stored cEx st0 "loc" "pikachu" 10 1 ["pound"]
      "manual" "rid" 0 ⟨"pikachu", 25⟩ rfl (by decide)).2.2.2⟩

/-- C8: two successive successful creates at a location leave exactly
that location mapped to the second call's encounter (the registry maps
each location to at most one encounter by construction); get after clear
returns absent; clear of an absent location is a no-op that raises no
error. -/
theorem registry_replace_clear_laws :
    (∀ (c : Collaborators) (st : RaidState) (X : String)
        (sid₁ : String) (lv₁ cb₁ : Int) (mids₁ : Option (List String))
        (src₁ rid₁ : String) (now₁ : Int)
        (sid₂ : String) (lv₂ cb₂ : Int) (mids₂ : Option (List String))
        (src₂ rid₂ : String) (now₂ : Int) (sd₁ sd₂ : SpeciesData),
      c.get_species sid₁ = some sd₁ → c.get_species sid₂ = some sd₂ →
      ∃ e₂,
        (create_manual_raid c
          (create_manual_raid c st X sid₁ lv₁ cb₁ mids₁ src₁ rid₁ now₁).2
          X sid₂ lv₂ cb₂ mids₂ src₂ rid₂ now₂).1 = Except.ok e₂ ∧
        (create_manual_raid c
          (create_manual_raid c st X sid₁ lv₁ cb₁ mids₁ src₁ rid₁ now₁).2
          X sid₂ lv₂ cb₂ mids₂ src₂ rid₂ now₂).2.active_raids X = some e₂) ∧
    (∀ (st : RaidState) (X : String),
      get_raid (clear_raid st X) X = none) ∧
    (∀ (st : RaidState) (X : String),
      st.active_raids X = none → clear_raid st X = st) := by
  refine ⟨?_, ?_, ?_⟩
  · intro c st X sid₁ lv₁ cb₁ mids₁ src₁ rid₁ now₁ sid₂ lv₂ cb₂ mids₂ src₂
      rid₂ now₂ sd₁ sd₂ h₁ h₂
    simp only [create_manual_raid, h₁, h₂]
    exact ⟨_, rfl, by simp⟩
  · intro st X
    simp [get_raid, clear_raid]
  · intro st X h
    refine RaidState.ext ?_
    funext loc
    by_cases hl : loc = X
    · subst hl
      simp [clear_raid, h]
    · simp [clear_raid, hl]

/-- Witness for C8: two concrete creates at location X, then the clear
and get laws at X on the empty registry. -/
theorem registry_replace_clear_laws_witness :
    (∃ e₂,
      (create_manual_raid cEx
        (create_manual_raid cEx st0 "X" "pikachu" 5 1 none "manual" "r1" 0).2
        "X" "pikachu" 7 2 none "manual" "r2" 1).1 = Except.ok e₂ ∧
      (create_manual_raid cEx
        (create_manual_raid cEx st0 "X" "pikachu" 5 1 none "manual" "r1" 0).2
        "X" "pikachu" 7 2 none "manual" "r2" 1).2.active_raids "X" =
        some e₂) ∧
    get_raid (clear_raid st0 "X") "X" = none ∧
    clear_raid st0 "X" = st0 :=
  ⟨registry_replace_clear_laws.1 cEx st0 "X" "pikachu" 5 1 none "manual" "r1"
      0 "pikachu" 7 2 none "manual" "r2" 1 ⟨"pikachu", 25⟩ ⟨"pikachu", 25⟩
      rfl rfl,
    registry_replace_clear_laws.2.1 st0 "X",
    registry_replace_clear_laws.2.2 st0 "X" rfl⟩

/-- C9: the resolver is side-effect-free and deterministic: run against
the mutable world it computes exactly the pure function of the
collaborator data and returns the world unchanged, so a second run with
the resulting world returns the identical output list. -/
theorem resolver_pure_and_idempotent (w : World) (s : String) (lv : Int) :
    generate_raid_moveset_st w s lv =
      (generate_raid_moveset w.collabs s lv, w) ∧
    (generate_raid_moveset_st w s lv).2 = w ∧
    (generate_raid_moveset_st (generate_raid_moveset_st w s lv).2 s lv).1 =
      (generate_raid_moveset_st w s lv).1 := by
  refine ⟨generate_st_eq w s lv, ?_, ?_⟩ <;> simp [generate_st_eq]

/-- C10: the summary projection allocates a fresh list for its move_ids
entry, the fresh reference differs from the config's reference, its
contents equal the config's list, and any mutation through the summary's
reference leaves the config's list unchanged. -/
theorem summary_copies_move_ids (e : RaidEncounterRef) (h : ListHeap)
    (hvalid : e.pokemon_config.move_ids_ref < h.next) :
    (e.summary h).1.move_ids_ref ≠ e.pokemon_config.move_ids_ref ∧
    (e.summary h).2.read (e.summary h).1.move_ids_ref =
      h.read e.pokemon_config.move_ids_ref ∧
    (e.summary h).2.read e.pokemon_config.move_ids_ref =
      h.read e.pokemon_config.move_ids_ref ∧
    (∀ l, ((e.summary h).2.write (e.summary h).1.move_ids_ref l).read
        e.pokemon_config.move_ids_ref = h.read e.pokemon_config.move_ids_ref) := by
  have hne : e.pokemon_config.move_ids_ref ≠ h.next := by omega
  refine ⟨?_, ?_, ?_, ?_⟩
  · simp only [RaidEncounterRef.summary, ListHeap.alloc]
    omega
  · simp [RaidEncounterRef.summary, ListHeap.alloc, ListHeap.read]
  · simp [RaidEncounterRef.summary, ListHeap.alloc, ListHeap.read, hne]
  · intro l
    simp [RaidEncounterRef.summary, ListHeap.alloc, ListHeap.read,
      ListHeap.write, hne]

/-- Witness for C10: a concrete heap and encounter; overwriting the
summary's copy leaves the stored list [tackle, growl] readable through
the config's reference. -/
theorem summary_copies_move_ids_witness :
    enc0.pokemon_config.move_ids_ref < heap0.next ∧
    (enc0.summary heap0).1.move_ids_ref ≠ enc0.pokemon_config.move_ids_ref ∧
    (enc0.summary heap0).2.read (enc0.summary heap0).1.move_ids_ref =
      heap0.read enc0.pokemon_config.move_ids_ref ∧
    (∀ l, ((enc0.summary heap0).2.write (enc0.summary heap0).1.move_ids_ref
        l).read enc0.pokemon_config.move_ids_ref =
      heap0.read enc0.pokemon_config.move_ids_ref) :=
  ⟨by decide,
    (summary_copies_move_ids enc0 heap0 (by decide)).1,
    (summary_copies_move_ids enc0 heap0 (by decide)).2.1,
    (summary_copies_move_ids enc0 heap0 (by decide)).2.2.2⟩
